import Mathlib

/-!
# WAVE format tags of `src/wav.h`

`wav.h` is a header of object-like `#define` lines: the include guard
`WAV_H_INCLUDED` (line 4, empty replacement list) and twenty-one
`WAVE_FORMAT_*` names (lines 8 to 28), each replaced by a parenthesised
hexadecimal literal with the suffix `U`.  Such a literal has an unsigned
integer type and denotes the written number, so each name is embedded as a
natural number and the header as the list of its `#define` lines in source
order, each with its line number.

The table of section 4.1 of the specification is transcribed separately
(`specTable`), and the theorems compare the two.
-/

namespace Wav

/-! ## The constants, one definition per `#define` of `wav.h` -/

/-- Line 8: `#define WAVE_FORMAT_UNKNOWN (0x0000U)`. -/
def WAVE_FORMAT_UNKNOWN : Nat := 0x0000
/-- Line 9: `#define WAVE_FORMAT_PCM (0x0001U)`. -/
def WAVE_FORMAT_PCM : Nat := 0x0001
/-- Line 10: `#define WAVE_FORMAT_ADPCM (0x0002U)`. -/
def WAVE_FORMAT_ADPCM : Nat := 0x0002
/-- Line 11: `#define WAVE_FORMAT_IEEE_FLOAT (0x0003U)`. -/
def WAVE_FORMAT_IEEE_FLOAT : Nat := 0x0003
/-- Line 12: `#define WAVE_FORMAT_ALAW (0x0006U)`. -/
def WAVE_FORMAT_ALAW : Nat := 0x0006
/-- Line 13: `#define WAVE_FORMAT_MULAW (0x0007U)`. -/
def WAVE_FORMAT_MULAW : Nat := 0x0007
/-- Line 14: `#define WAVE_FORMAT_OKI_ADPCM (0x0010U)`. -/
def WAVE_FORMAT_OKI_ADPCM : Nat := 0x0010
/-- Line 15: `#define WAVE_FORMAT_IMA_ADPCM (0x0011U)`. -/
def WAVE_FORMAT_IMA_ADPCM : Nat := 0x0011
/-- Line 16: `#define WAVE_FORMAT_DIGISTD (0x0015U)`. -/
def WAVE_FORMAT_DIGISTD : Nat := 0x0015
/-- Line 17: `#define WAVE_FORMAT_DIGIFIX (0x0016U)`. -/
def WAVE_FORMAT_DIGIFIX : Nat := 0x0016
/-- Line 18: `#define WAVE_FORMAT_DOLBY_AC2 (0x0030U)`. -/
def WAVE_FORMAT_DOLBY_AC2 : Nat := 0x0030
/-- Line 19: `#define WAVE_FORMAT_GSM610 (0x0031U)`. -/
def WAVE_FORMAT_GSM610 : Nat := 0x0031
/-- Line 20: `#define WAVE_FORMAT_ROCKWELL_ADPCM (0x003bU)`. -/
def WAVE_FORMAT_ROCKWELL_ADPCM : Nat := 0x003b
/-- Line 21: `#define WAVE_FORMAT_ROCKWELL_DIGITALK (0x003cU)`. -/
def WAVE_FORMAT_ROCKWELL_DIGITALK : Nat := 0x003c
/-- Line 22: `#define WAVE_FORMAT_G721_ADPCM (0x0040U)`. -/
def WAVE_FORMAT_G721_ADPCM : Nat := 0x0040
/-- Line 23: `#define WAVE_FORMAT_G728_CELP (0x0041U)`. -/
def WAVE_FORMAT_G728_CELP : Nat := 0x0041
/-- Line 24: `#define WAVE_FORMAT_MPEG (0x0050U)`. -/
def WAVE_FORMAT_MPEG : Nat := 0x0050
/-- Line 25: `#define WAVE_FORMAT_MPEGLAYER3 (0x0055U)`. -/
def WAVE_FORMAT_MPEGLAYER3 : Nat := 0x0055
/-- Line 26: `#define WAVE_FORMAT_G726_ADPCM (0x0064U)`. -/
def WAVE_FORMAT_G726_ADPCM : Nat := 0x0064
/-- Line 27: `#define WAVE_FORMAT_G722_ADPCM (0x0065U)`. -/
def WAVE_FORMAT_G722_ADPCM : Nat := 0x0065
/-- Line 28: `#define WAVE_FORMAT_EXTENSIBLE (0xfffeU)`. -/
def WAVE_FORMAT_EXTENSIBLE : Nat := 0xfffe

/-! ## The header as data -/

/-- One `#define` line of the header: where it stands, the name it defines and
the value of its replacement list (`none` when the replacement list is
empty, as for the include guard). -/
structure Define where
  line : Nat
  name : String
  body : Option Nat
deriving DecidableEq

/-- Every `#define` line of `wav.h`, in source order. -/
def wavHeader : List Define :=
  [ ⟨4, "WAV_H_INCLUDED", none⟩,
    ⟨8, "WAVE_FORMAT_UNKNOWN", some WAVE_FORMAT_UNKNOWN⟩,
    ⟨9, "WAVE_FORMAT_PCM", some WAVE_FORMAT_PCM⟩,
    ⟨10, "WAVE_FORMAT_ADPCM", some WAVE_FORMAT_ADPCM⟩,
    ⟨11, "WAVE_FORMAT_IEEE_FLOAT", some WAVE_FORMAT_IEEE_FLOAT⟩,
    ⟨12, "WAVE_FORMAT_ALAW", some WAVE_FORMAT_ALAW⟩,
    ⟨13, "WAVE_FORMAT_MULAW", some WAVE_FORMAT_MULAW⟩,
    ⟨14, "WAVE_FORMAT_OKI_ADPCM", some WAVE_FORMAT_OKI_ADPCM⟩,
    ⟨15, "WAVE_FORMAT_IMA_ADPCM", some WAVE_FORMAT_IMA_ADPCM⟩,
    ⟨16, "WAVE_FORMAT_DIGISTD", some WAVE_FORMAT_DIGISTD⟩,
    ⟨17, "WAVE_FORMAT_DIGIFIX", some WAVE_FORMAT_DIGIFIX⟩,
    ⟨18, "WAVE_FORMAT_DOLBY_AC2", some WAVE_FORMAT_DOLBY_AC2⟩,
    ⟨19, "WAVE_FORMAT_GSM610", some WAVE_FORMAT_GSM610⟩,
    ⟨20, "WAVE_FORMAT_ROCKWELL_ADPCM", some WAVE_FORMAT_ROCKWELL_ADPCM⟩,
    ⟨21, "WAVE_FORMAT_ROCKWELL_DIGITALK", some WAVE_FORMAT_ROCKWELL_DIGITALK⟩,
    ⟨22, "WAVE_FORMAT_G721_ADPCM", some WAVE_FORMAT_G721_ADPCM⟩,
    ⟨23, "WAVE_FORMAT_G728_CELP", some WAVE_FORMAT_G728_CELP⟩,
    ⟨24, "WAVE_FORMAT_MPEG", some WAVE_FORMAT_MPEG⟩,
    ⟨25, "WAVE_FORMAT_MPEGLAYER3", some WAVE_FORMAT_MPEGLAYER3⟩,
    ⟨26, "WAVE_FORMAT_G726_ADPCM", some WAVE_FORMAT_G726_ADPCM⟩,
    ⟨27, "WAVE_FORMAT_G722_ADPCM", some WAVE_FORMAT_G722_ADPCM⟩,
    ⟨28, "WAVE_FORMAT_EXTENSIBLE", some WAVE_FORMAT_EXTENSIBLE⟩ ]

/-- The name `WAVE_FORMAT_<name>` of the constant for the tag called `name`. -/
def tagName (name : String) : String := "WAVE_FORMAT_" ++ name

/-- Whether an identifier has the shape `WAVE_FORMAT_*`. -/
def isTagName (ident : String) : Bool :=
  List.isPrefixOf (tagName "").data ident.data

/-- A format tag constant: a `WAVE_FORMAT_*` name with a numeric value. -/
structure FormatConst where
  line : Nat
  name : String
  value : Nat
deriving DecidableEq

/-- The format tag constants the header defines: its `#define` lines whose name
has the shape `WAVE_FORMAT_*` and whose replacement list has a value, in source
order. -/
def formatConstants : List FormatConst :=
  wavHeader.filterMap fun d =>
    if isTagName d.name then d.body.map fun v => ⟨d.line, d.name, v⟩ else none

/-- The value the header gives to an identifier, as the preprocessor would
substitute it: the first `#define` of that name. -/
def lookupConstant (ident : String) : Option Nat :=
  (formatConstants.find? fun c => c.name == ident).map fun c => c.value

/-! ## The table of the specification -/

/-- A row of the table of section 4.1: a code and a symbolic name. -/
structure FormatTag where
  code : Nat
  name : String
deriving DecidableEq

/-- The literal table of section 4.1 of the specification (code, name),
row by row as it is printed there. -/
def specTable : List FormatTag :=
  [ ⟨0x0000, "UNKNOWN"⟩,
    ⟨0x0001, "PCM"⟩,
    ⟨0x0002, "ADPCM"⟩,
    ⟨0x0003, "IEEE_FLOAT"⟩,
    ⟨0x0006, "ALAW"⟩,
    ⟨0x0007, "MULAW"⟩,
    ⟨0x0010, "OKI_ADPCM"⟩,
    ⟨0x0011, "IMA_ADPCM"⟩,
    ⟨0x0015, "DIGISTD"⟩,
    ⟨0x0016, "DIGIFIX"⟩,
    ⟨0x0030, "DOLBY_AC2"⟩,
    ⟨0x0031, "GSM610"⟩,
    ⟨0x003b, "ROCKWELL_ADPCM"⟩,
    ⟨0x003c, "ROCKWELL_DIGITALK"⟩,
    ⟨0x0040, "G721_ADPCM"⟩,
    ⟨0x0041, "G728_CELP"⟩,
    ⟨0x0050, "MPEG"⟩,
    ⟨0x0055, "MPEGLAYER3"⟩,
    ⟨0x0064, "G726_ADPCM"⟩,
    ⟨0x0065, "G722_ADPCM"⟩,
    ⟨0xfffe, "EXTENSIBLE"⟩ ]

/-! ## Sanity checks of the embedding -/

example : formatConstants.length = 21 := by decide
example : lookupConstant "WAVE_FORMAT_PCM" = some 1 := by decide
example : lookupConstant "WAV_H_INCLUDED" = none := by decide

/-! ## Theorems -/

/-- C1: for each of the 21 rows (code, name) of the table of section 4.1, the
header gives the constant `WAVE_FORMAT_<name>` exactly the value `code`. -/
theorem spec_rows_have_exact_values :
    specTable.length = 21 ∧
      ∀ r ∈ specTable, lookupConstant (tagName r.name) = some r.code := by
  decide

/-- The row `0x003b, ROCKWELL_ADPCM` of the table is the value of
`WAVE_FORMAT_ROCKWELL_ADPCM`. -/
theorem spec_rows_have_exact_values_witness :
    (⟨0x003b, "ROCKWELL_ADPCM"⟩ : FormatTag) ∈ specTable ∧
      lookupConstant "WAVE_FORMAT_ROCKWELL_ADPCM" = some 0x003b :=
  ⟨by decide, spec_rows_have_exact_values.2 ⟨0x003b, "ROCKWELL_ADPCM"⟩ (by decide)⟩

/-- C2: the format tag constants of the header have pairwise distinct values:
two constants with different names have different numeric codes. -/
theorem constant_values_pairwise_distinct :
    ∀ a ∈ formatConstants, ∀ b ∈ formatConstants,
      a.name ≠ b.name → a.value ≠ b.value := by
  decide

/-- The constants `WAVE_FORMAT_ALAW` and `WAVE_FORMAT_MULAW` have different
names and different values. -/
theorem constant_values_pairwise_distinct_witness :
    (⟨12, "WAVE_FORMAT_ALAW", WAVE_FORMAT_ALAW⟩ : FormatConst) ∈ formatConstants ∧
      (⟨13, "WAVE_FORMAT_MULAW", WAVE_FORMAT_MULAW⟩ : FormatConst) ∈ formatConstants ∧
      WAVE_FORMAT_ALAW ≠ WAVE_FORMAT_MULAW :=
  ⟨by decide, by decide,
    constant_values_pairwise_distinct ⟨12, "WAVE_FORMAT_ALAW", WAVE_FORMAT_ALAW⟩ (by decide)
      ⟨13, "WAVE_FORMAT_MULAW", WAVE_FORMAT_MULAW⟩ (by decide) (by decide)⟩

/-- C3: the three seed regression values, as decimal integers:
`WAVE_FORMAT_PCM` is 1, `WAVE_FORMAT_EXTENSIBLE` is 65534 and
`WAVE_FORMAT_MPEGLAYER3` is 85. -/
theorem seed_regression_values :
    WAVE_FORMAT_PCM = 1 ∧ WAVE_FORMAT_EXTENSIBLE = 65534 ∧ WAVE_FORMAT_MPEGLAYER3 = 85 :=
  ⟨rfl, rfl, rfl⟩

/-- C4: every format tag constant of the header is representable as an unsigned
16-bit integer: it is below `2 ^ 16`, so reducing it modulo `2 ^ 16` leaves it
unchanged. -/
theorem constants_fit_in_16_bits :
    ∀ c ∈ formatConstants, c.value < 2 ^ 16 ∧ c.value % 2 ^ 16 = c.value := by
  decide

/-- The largest constant, `WAVE_FORMAT_EXTENSIBLE`, survives the reduction
modulo `2 ^ 16`. -/
theorem constants_fit_in_16_bits_witness :
    (⟨28, "WAVE_FORMAT_EXTENSIBLE", WAVE_FORMAT_EXTENSIBLE⟩ : FormatConst) ∈ formatConstants ∧
      WAVE_FORMAT_EXTENSIBLE < 2 ^ 16 ∧
      WAVE_FORMAT_EXTENSIBLE % 2 ^ 16 = WAVE_FORMAT_EXTENSIBLE :=
  ⟨by decide,
    constants_fit_in_16_bits ⟨28, "WAVE_FORMAT_EXTENSIBLE", WAVE_FORMAT_EXTENSIBLE⟩ (by decide)⟩

/-- C5: the format tag constants of the header are exactly the table of
section 4.1: the header defines exactly 21 of them, every row of the table has
its constant `WAVE_FORMAT_<name>` with the row's code, and every constant of
the header is the (code, name) pair of some row of the table. -/
theorem constants_are_exactly_spec_table :
    formatConstants.length = 21 ∧
      (∀ r ∈ specTable, ∃ c ∈ formatConstants,
        c.name = tagName r.name ∧ c.value = r.code) ∧
      (∀ c ∈ formatConstants, ∃ r ∈ specTable,
        c.name = tagName r.name ∧ c.value = r.code) := by
  decide

/-- C6: the codes span exactly the range `0x0000` to `0xFFFE`: every constant
lies in that range, the minimum `0x0000` is `WAVE_FORMAT_UNKNOWN`, the maximum
`0xFFFE` is `WAVE_FORMAT_EXTENSIBLE`, and no constant equals `0xFFFF`. -/
theorem codes_span_0000_to_fffe :
    (∀ c ∈ formatConstants, 0x0000 ≤ c.value ∧ c.value ≤ 0xFFFE) ∧
      (∃ c ∈ formatConstants, c.name = "WAVE_FORMAT_UNKNOWN" ∧
        c.value = WAVE_FORMAT_UNKNOWN ∧ c.value = 0x0000) ∧
      (∃ c ∈ formatConstants, c.name = "WAVE_FORMAT_EXTENSIBLE" ∧
        c.value = WAVE_FORMAT_EXTENSIBLE ∧ c.value = 0xFFFE) ∧
      (∀ c ∈ formatConstants, c.value ≠ 0xFFFF) := by
  decide

/-- C7: the constants are listed in strictly increasing order of code: of two
constants, the one defined on the earlier line (lines 8 to 28) has the strictly
smaller value. -/
theorem constants_strictly_increasing_by_line :
    ∀ a ∈ formatConstants, ∀ b ∈ formatConstants,
      a.line < b.line → a.value < b.value := by
  decide

/-- Line 27 (`WAVE_FORMAT_G722_ADPCM`) precedes line 28
(`WAVE_FORMAT_EXTENSIBLE`), and `0x0065 < 0xfffe`. -/
theorem constants_strictly_increasing_by_line_witness :
    (⟨27, "WAVE_FORMAT_G722_ADPCM", WAVE_FORMAT_G722_ADPCM⟩ : FormatConst) ∈ formatConstants ∧
      (⟨28, "WAVE_FORMAT_EXTENSIBLE", WAVE_FORMAT_EXTENSIBLE⟩ : FormatConst) ∈ formatConstants ∧
      WAVE_FORMAT_G722_ADPCM < WAVE_FORMAT_EXTENSIBLE :=
  ⟨by decide, by decide,
    constants_strictly_increasing_by_line
      ⟨27, "WAVE_FORMAT_G722_ADPCM", WAVE_FORMAT_G722_ADPCM⟩ (by decide)
      ⟨28, "WAVE_FORMAT_EXTENSIBLE", WAVE_FORMAT_EXTENSIBLE⟩ (by decide) (by decide)⟩

end Wav
